import Mathlib

/-!
Shallow embedding of `server_benchmark.py` (koaf/server_benchmark).

Conventions used throughout:
* Python floats are modelled as rationals (`ℚ`); the numeric literals of the
  source (`0.9537`, `1024**3`, …) appear as exact rationals.
* External processes are modelled by their observable outcome (`ToolOutcome`):
  either the process returned (exit code plus captured text) or the call raised
  `subprocess.TimeoutExpired`, `FileNotFoundError`, or another exception (the
  string argument is the Python rendering `str(e)` of the exception).
* Python dictionaries with a fixed key set are modelled as structures whose
  fields are `Option`-valued when the key may be absent.
* Mutation is modelled by explicit state passing; object identity (for the
  aliasing between the runner's envelope and the stored record) is modelled by
  a small heap indexed by `Nat` references.
-/

namespace ServerBenchmark

/-- Occurrence of a character sequence inside another; `containsSeq n h` is the
model of the Python membership test for strings, as data lists. -/
def containsSeq (needle : List Char) : List Char → Bool
  | [] => needle.isEmpty
  | c :: cs => needle.isPrefixOf (c :: cs) || containsSeq needle cs

/-- Model of the Python substring test: `hasSub hay needle` is the value of
the expression `needle in hay`. -/
def hasSub (hay needle : String) : Bool :=
  containsSeq needle.data hay.data

/-- Fuel-driven worker for the separator split: at each position either the
separator is a prefix (close the current piece and continue after it) or one
character moves into the current piece. The fuel is the string length plus
one, which the scan never exhausts. -/
def splitFuel (sep : List Char) : Nat → List Char → List Char → List (List Char)
  | 0, rest, acc => [acc.reverse ++ rest]
  | _ + 1, [], acc => [acc.reverse]
  | f + 1, c :: cs, acc =>
    if sep.isPrefixOf (c :: cs) then
      acc.reverse :: splitFuel sep f ((c :: cs).drop sep.length) []
    else splitFuel sep f cs (c :: acc)

/-- Model of the Python `s.split(sep)` for a nonempty separator: the pieces
between the non-overlapping occurrences of the separator, scanned left to
right. -/
def pySplitOn (s sep : String) : List String :=
  (splitFuel sep.data (s.data.length + 1) s.data []).map (fun cs => String.mk cs)

/-- Model of the Python no-argument `str.split()`: split on blanks and drop
empty pieces (the tool outputs handled by the program separate tokens with
plain spaces). -/
def pySplit (s : String) : List String :=
  (pySplitOn s " ").filter (fun t => !t.isEmpty)

/-- Whitespace recognizer of the Python `str.strip()`. -/
def pySpace (c : Char) : Bool :=
  c = ' ' || c = '\t' || c = '\n' || c = '\r'

/-- Model of the Python `str.strip()`: drop whitespace from both ends. -/
def pyStrip (s : String) : String :=
  String.mk (((s.data.dropWhile pySpace).reverse.dropWhile pySpace).reverse)

/-- Model of the Python `str.lower()` on the ASCII report texts. -/
def pyLower (s : String) : String :=
  String.mk (s.data.map Char.toLower)

/-- Value of a digit string, most significant first. -/
def decVal (cs : List Char) : ℚ :=
  cs.foldl (fun a c => a * 10 + ((c.toNat - 48 : ℕ) : ℚ)) 0

/-- Model of the Python `float(s)` conversion on the decimal literals produced
by the measurement tools: optional sign, integer digits, optional fractional
digits. Arguments of any other shape raise `ValueError` in the source, which
the model renders as `none`. -/
def parseFloat (s : String) : Option ℚ :=
  let cs := s.data
  let signAndRest : ℚ × List Char :=
    match cs with
    | '-' :: rest => (-1, rest)
    | '+' :: rest => (1, rest)
    | _ => (1, cs)
  let sign := signAndRest.1
  let body := signAndRest.2
  let intPart := body.takeWhile Char.isDigit
  let rest := body.dropWhile Char.isDigit
  match rest with
  | [] => if intPart.isEmpty then none else some (sign * decVal intPart)
  | '.' :: frac =>
    if frac.all Char.isDigit && !(intPart.isEmpty && frac.isEmpty) then
      some (sign * (decVal intPart + decVal frac / (10 ^ frac.length)))
    else none
  | _ => none

/-- Rendering of the `ValueError` raised by a failing `float(s)` call. -/
def floatError (s : String) : String :=
  "could not convert string to float: " ++ s

/-- Model of the Python `round(q, 2)` used for the reported metrics. -/
def round2 (q : ℚ) : ℚ :=
  ((Int.floor (q * 100 + 1 / 2) : ℤ) : ℚ) / 100

/-- Smallest element of a list of rationals, as Python `min` on a nonempty
list (`0` on the empty list, which the source never passes). -/
def pyMin : List ℚ → ℚ
  | [] => 0
  | x :: xs => xs.foldl min x

/-- Largest element of a list of rationals, as Python `max`. -/
def pyMax : List ℚ → ℚ
  | [] => 0
  | x :: xs => xs.foldl max x

/-- Observable outcome of one external-process invocation
(`subprocess.run` / `subprocess.Popen`): the process returned with an exit
code and captured text, or the call raised. Exception constructors carry the
Python rendering `str(e)`. -/
inductive ToolOutcome where
  | output (returncode : Int) (text : String)
  | timeoutExpired (msg : String)
  | fileNotFound (msg : String)
  | failure (msg : String)
deriving DecidableEq, Repr

/-- The rendering `str(e)` seen by a generic `except Exception` handler. -/
def toolMsg : ToolOutcome → String
  | .output _ _ => ""
  | .timeoutExpired m => m
  | .fileNotFound m => m
  | .failure m => m

/-- Result dictionary returned by `BenchmarkRunner.run_cpu_benchmark`. -/
inductive CpuResult where
  | completed (events_per_second : ℚ)
  | error (msg : String)
deriving DecidableEq, Repr

/-- Result dictionary returned by `BenchmarkRunner.run_memory_benchmark`. -/
inductive MemResult where
  | completed (throughput_mib_per_sec : ℚ)
  | error (msg : String)
deriving DecidableEq, Repr

/-- Result dictionary returned by `BenchmarkRunner.run_disk_benchmark`. -/
inductive DiskResult where
  | completed (read_mib_per_sec write_mib_per_sec : ℚ)
  | error (msg : String)
deriving DecidableEq, Repr

/-- The `self.progress` dictionary of `BenchmarkRunner`. -/
structure Progress where
  current_test : String
  progress : Nat
  total_tests : Nat
  message : String
deriving DecidableEq, Repr

/-- Scan of the sysbench cpu report: the first line containing
"events per second:" wins; its text after the first colon is converted with
`float`, whose `ValueError` escapes to the generic handler. No matching line
yields the degraded-success zero result. -/
def cpuParseLines : List String → CpuResult
  | [] => .completed 0
  | l :: ls =>
    if hasSub l "events per second:" then
      match parseFloat (pyStrip ((pySplitOn l ":").getD 1 "")) with
      | some q => .completed q
      | none => .error (floatError (pyStrip ((pySplitOn l ":").getD 1 "")))
    else cpuParseLines ls

/-- `BenchmarkRunner.run_cpu_benchmark`: sets the progress headline, invokes
sysbench cpu, parses the report, and bumps the progress counter by one on
every exit path (success, degraded zero, timeout, missing tool, other
failure). -/
def run_cpu_benchmark (o : ToolOutcome) (p : Progress) : CpuResult × Progress :=
  let p1 := { p with current_test := "CPU", message := "Testing CPU performance..." }
  match o with
  | .output _ out =>
    (cpuParseLines (pySplitOn out "\n"), { p1 with progress := p1.progress + 1 })
  | .timeoutExpired _ => (.error "Timeout", { p1 with progress := p1.progress + 1 })
  | .fileNotFound _ => (.error "sysbench not installed", { p1 with progress := p1.progress + 1 })
  | .failure m => (.error m, { p1 with progress := p1.progress + 1 })

/-- Scan of the sysbench memory report: the first line containing both
"MiB/sec" and "transferred" wins; the figure between the first parenthesis
and "MiB/sec" is converted with `float`. A missing parenthesis raises
`IndexError`, a bad figure raises `ValueError`; both escape to the generic
handler. -/
def memParseLines : List String → MemResult
  | [] => .completed 0
  | l :: ls =>
    if hasSub l "MiB/sec" && hasSub l "transferred" then
      match (pySplitOn l "(").get? 1 with
      | none => .error "list index out of range"
      | some seg =>
        match parseFloat (pyStrip ((pySplitOn seg "MiB/sec").getD 0 "")) with
        | some q => .completed q
        | none => .error (floatError (pyStrip ((pySplitOn seg "MiB/sec").getD 0 "")))
    else memParseLines ls

/-- `BenchmarkRunner.run_memory_benchmark`: same shape as the cpu adapter for
the sysbench memory workload. -/
def run_memory_benchmark (o : ToolOutcome) (p : Progress) : MemResult × Progress :=
  let p1 := { p with current_test := "Memory", message := "Testing memory throughput..." }
  match o with
  | .output _ out =>
    (memParseLines (pySplitOn out "\n"), { p1 with progress := p1.progress + 1 })
  | .timeoutExpired _ => (.error "Timeout", { p1 with progress := p1.progress + 1 })
  | .fileNotFound _ => (.error "sysbench not installed", { p1 with progress := p1.progress + 1 })
  | .failure m => (.error m, { p1 with progress := p1.progress + 1 })

/-- Helper of the legacy-format extraction: walking the whitespace tokens of a
line from index 1 on, return the token preceding the first token whose
lowercase form contains "mb" (the enumerate loop with the `i > 0` test). -/
def legacyFindFrom (prev : String) : List String → Option String
  | [] => none
  | t :: ts => if hasSub (pyLower t) "mb" then some prev else legacyFindFrom t ts

/-- Token preceding the first "mb"-bearing token (at index at least 1). -/
def legacyFind : List String → Option String
  | [] => none
  | p0 :: rest => legacyFindFrom p0 rest

/-- Legacy sysbench phrasing: the figure before the first "mb" token,
converted with `float`; a failing conversion raises inside the
`try`/`except pass` of the branch, which the model renders as `none`. -/
def legacyExtract (parts : List String) : Option ℚ :=
  (legacyFind parts).bind parseFloat

/-- One iteration of the sysbench fileio report scan, updating the
`(read_mib, write_mib)` accumulator: modern "read, mib/s:" / "written,
mib/s:" lines first, then the legacy "mb/sec" phrasing with the
MB-to-MiB factor 0.9537; every branch swallows its own parse failure. -/
def diskLineUpdate (acc : ℚ × ℚ) (line : String) : ℚ × ℚ :=
  let lo := pyLower line
  if hasSub lo "read, mib/s:" then
    match parseFloat (pyStrip ((pySplitOn line ":").getD 1 "")) with
    | some q => (q, acc.2)
    | none => acc
  else if hasSub lo "written, mib/s:" then
    match parseFloat (pyStrip ((pySplitOn line ":").getD 1 "")) with
    | some q => (acc.1, q)
    | none => acc
  else if hasSub lo "read" && (hasSub lo "mb/sec" || hasSub lo "mb/s") then
    match legacyExtract (pySplit line) with
    | some q => (q * (9537 / 10000), acc.2)
    | none => acc
  else if hasSub lo "written" && (hasSub lo "mb/sec" || hasSub lo "mb/s") then
    match legacyExtract (pySplit line) with
    | some q => (acc.1, q * (9537 / 10000))
    | none => acc
  else acc

/-- Full scan of the sysbench fileio report, starting from zero read and
write figures. -/
def diskParseLines (lines : List String) : ℚ × ℚ :=
  lines.foldl diskLineUpdate (0, 0)

/-- One "bytes ... copied" line of a dd report: the first comma piece whose
lowercase form contains "mb/s" or "gb/s" provides the figure (its first
whitespace token, converted with `float`); a failing conversion raises
`ValueError`, aborting the whole dd fallback. -/
def ddLineScan : List String → Except String (Option ℚ)
  | [] => .ok none
  | pt :: pts =>
    if hasSub (pyLower pt) "mb/s" || hasSub (pyLower pt) "gb/s" then
      match (pySplit (pyStrip pt)).get? 0 with
      | none => .error "list index out of range"
      | some tok =>
        match parseFloat tok with
        | some q => .ok (some q)
        | none => .error (floatError tok)
    else ddLineScan pts

/-- Scan of a dd transfer report (its stderr): each "bytes"/"copied" line may
overwrite the current figure; the pair returned is the last figure assigned
together with the message of the exception that aborted the scan, if any. -/
def ddScan : List String → ℚ → ℚ × Option String
  | [], cur => (cur, none)
  | l :: ls, cur =>
    if hasSub l "bytes" && hasSub l "copied" then
      match ddLineScan (pySplitOn l ",") with
      | .ok (some q) => ddScan ls q
      | .ok none => ddScan ls cur
      | .error m => (cur, some m)
    else ddScan ls cur

/-- The dd fallback of the disk adapter (entered when both figures are still
zero): write test, then read test, then removal of the scratch file; the
whole block is under one `try` whose exceptions are swallowed, keeping the
figures assigned so far. The returned list records which external commands
were invoked. The outcome texts are the captured stderr of dd. -/
def ddFallback (wOut rOut : ToolOutcome) : (ℚ × ℚ) × List String :=
  match wOut with
  | .timeoutExpired _ | .fileNotFound _ | .failure _ => ((0, 0), ["dd_write"])
  | .output _ werr =>
    match ddScan (pySplitOn werr "\n") 0 with
    | (w, some _) => ((0, w), ["dd_write"])
    | (w, none) =>
      match rOut with
      | .timeoutExpired _ | .fileNotFound _ | .failure _ => ((0, w), ["dd_write", "dd_read"])
      | .output _ rerr =>
        match ddScan (pySplitOn rerr "\n") 0 with
        | (rd, some _) => ((rd, w), ["dd_write", "dd_read"])
        | (rd, none) => ((rd, w), ["dd_write", "dd_read", "rm"])

/-- Environment of one `BenchmarkRunner.run_disk_benchmark` call: the
outcomes of the prepare, run and cleanup sysbench invocations and of the two
dd fallback transfers (dd reports on stderr, carried as the outcome text). -/
structure DiskInputs where
  prep : ToolOutcome
  runIo : ToolOutcome
  cleanup : ToolOutcome
  ddWrite : ToolOutcome
  ddRead : ToolOutcome
deriving DecidableEq, Repr

/-- `BenchmarkRunner.run_disk_benchmark`: prepare, run, cleanup (cleanup is
invoked before any parsing, and its exit code is ignored, but an exception
it raises escapes to the outer handler), then the report scan and, when both
figures are zero, the dd fallback. The third component records the external
commands invoked, in order; the progress counter is bumped by one on every
exit path. -/
def run_disk_benchmark (inp : DiskInputs) (p : Progress) :
    DiskResult × Progress × List String :=
  let p1 := { p with current_test := "Disk", message := "Preparing test files..." }
  match inp.prep with
  | .timeoutExpired m | .fileNotFound m | .failure m =>
    (.error m, { p1 with progress := p1.progress + 1 }, ["prepare"])
  | .output _ _ =>
    let p2 := { p1 with message := "Testing disk I/O performance..." }
    match inp.runIo with
    | .timeoutExpired m | .fileNotFound m | .failure m =>
      (.error m, { p2 with progress := p2.progress + 1 }, ["prepare", "run"])
    | .output _ out =>
      let p3 := { p2 with message := "Cleaning up test files..." }
      match inp.cleanup with
      | .timeoutExpired m | .fileNotFound m | .failure m =>
        (.error m, { p3 with progress := p3.progress + 1 }, ["prepare", "run", "cleanup"])
      | .output _ _ =>
        let rws := diskParseLines (pySplitOn out "\n")
        let fb :=
          if rws.1 = 0 ∧ rws.2 = 0 then ddFallback inp.ddWrite inp.ddRead else (rws, [])
        let p4 :=
          if rws.1 = 0 ∧ rws.2 = 0 then { p3 with message := "Using fallback dd test..." } else p3
        (.completed fb.1.1 fb.1.2, { p4 with progress := p4.progress + 1 },
          ["prepare", "run", "cleanup"] ++ fb.2)

/-- The `results` dictionary assembled by
`BenchmarkRunner.run_network_benchmark`; every key the code can set appears as
an `Option` field (absent key = `none`). There is no error field for the
interface-counters probe: the code has none. -/
structure NetResult where
  total_bytes_sent_gb : Option ℚ := none
  total_bytes_recv_gb : Option ℚ := none
  throughput_send_mbps : Option ℚ := none
  throughput_recv_mbps : Option ℚ := none
  throughput_error : Option String := none
  latency_min_ms : Option ℚ := none
  latency_avg_ms : Option ℚ := none
  latency_max_ms : Option ℚ := none
  latency_gateway : Option String := none
  latency_error : Option String := none
  dns_avg_ms : Option ℚ := none
  dns_min_ms : Option ℚ := none
  dns_max_ms : Option ℚ := none
  dns_error : Option String := none
  status : Option String := none
deriving DecidableEq, Repr

/-- Interface-counters probe: `psutil.net_io_counters()` either yields the
cumulative sent/received byte counts or raises; the bare `except: pass`
swallows the failure without recording anything. -/
def countersProbe (c : Option (Nat × Nat)) (r : NetResult) : NetResult :=
  match c with
  | none => r
  | some (s, v) =>
    { r with total_bytes_sent_gb := some (round2 ((s : ℚ) / 1024 ^ 3)),
             total_bytes_recv_gb := some (round2 ((v : ℚ) / 1024 ^ 3)) }

/-- An exception reaching the throughput probe handler chain. -/
inductive PyExc where
  | timeoutExpired (msg : String)
  | fileNotFound (msg : String)
  | other (msg : String)
deriving DecidableEq, Repr

/-- Message stored by the throughput handler chain for an exception. -/
def thrErrMsg : PyExc → String
  | .timeoutExpired _ => "iperf3 timeout"
  | .fileNotFound _ => "iperf3 not installed"
  | .other m => m

/-- Environment of the throughput probe: the server `Popen` (some = it
raised), the client `subprocess.run`, the `server_proc.wait` (some = it
raised), and the two JSON lookups `end.sum_sent.bits_per_second` and
`end.sum_received.bits_per_second` on the client stdout — `json.loads` and
the nested indexing are external library calls, modelled by their outcome. -/
structure ThrInputs where
  spawn : Option PyExc
  client : ToolOutcome
  waitErr : Option PyExc
  sent : Except String ℚ
  recv : Except String ℚ
deriving Repr

/-- Throughput probe: start the one-shot iperf3 server, run the client, wait
for the server, and on a zero exit code read the two bits-per-second figures
(the send figure is stored before the receive lookup, so a failing receive
lookup leaves the send figure in place alongside the error); every exception
is mapped to a `throughput_error` message. A nonzero client exit code leaves
the result untouched. -/
def thrProbe (t : ThrInputs) (r : NetResult) : NetResult :=
  match t.spawn with
  | some e => { r with throughput_error := some (thrErrMsg e) }
  | none =>
    match t.client with
    | .timeoutExpired _ => { r with throughput_error := some "iperf3 timeout" }
    | .fileNotFound _ => { r with throughput_error := some "iperf3 not installed" }
    | .failure m => { r with throughput_error := some m }
    | .output rc _ =>
      match t.waitErr with
      | some e => { r with throughput_error := some (thrErrMsg e) }
      | none =>
        if rc = 0 then
          match t.sent with
          | .error m => { r with throughput_error := some m }
          | .ok s =>
            let r1 := { r with throughput_send_mbps := some (round2 (s / 1000000)) }
            match t.recv with
            | .error m => { r1 with throughput_error := some m }
            | .ok v => { r1 with throughput_recv_mbps := some (round2 (v / 1000000)) }
        else r

/-- Rendering of the `ValueError` raised by unpacking a split of the wrong
arity into four names. -/
def unpackError (n : Nat) : String :=
  if n < 4 then "not enough values to unpack (expected 4, got " ++ toString n ++ ")"
  else "too many values to unpack (expected 4)"

/-- Scan of the ping report for the first "rtt min/avg/max" or "round-trip
min/avg/max" line: the text after the first equals sign, trimmed, first
whitespace token, split on slashes into exactly four figures; the three
figures are converted with `float` and assigned one at a time, so a later
conversion failure keeps the earlier assignments and adds the error. -/
def latParseLines (gateway : String) (r : NetResult) : List String → NetResult
  | [] => r
  | l :: ls =>
    if hasSub l "rtt min/avg/max" || hasSub l "round-trip min/avg/max" then
      match (pySplitOn l "=").get? 1 with
      | none => { r with latency_error := some "list index out of range" }
      | some seg =>
        match (pySplit (pyStrip seg)).get? 0 with
        | none => { r with latency_error := some "list index out of range" }
        | some stats =>
          match pySplitOn stats "/" with
          | [mn, av, mx, _md] =>
            match parseFloat mn with
            | none => { r with latency_error := some (floatError mn) }
            | some qmn =>
              let r1 := { r with latency_min_ms := some qmn }
              match parseFloat av with
              | none => { r1 with latency_error := some (floatError av) }
              | some qav =>
                let r2 := { r1 with latency_avg_ms := some qav }
                match parseFloat mx with
                | none => { r2 with latency_error := some (floatError mx) }
                | some qmx =>
                  { r2 with latency_max_ms := some qmx, latency_gateway := some gateway }
          | other => { r with latency_error := some (unpackError other.length) }
    else latParseLines gateway r ls

/-- Environment of the latency probe: the `ip route show default` call and
the `ping -c 10 -q` call. -/
structure LatInputs where
  gw : ToolOutcome
  ping : ToolOutcome
deriving DecidableEq, Repr

/-- Latency probe: read the default route, take its third whitespace token as
the gateway, ping it, and parse the round-trip summary; any exception in the
block becomes `latency_error`, while a nonzero exit code of either command
silently leaves the result untouched. -/
def latProbe (t : LatInputs) (r : NetResult) : NetResult :=
  match t.gw with
  | .timeoutExpired m | .fileNotFound m | .failure m => { r with latency_error := some m }
  | .output rc out =>
    if rc = 0 then
      match (pySplit out).get? 2 with
      | none => { r with latency_error := some "list index out of range" }
      | some gateway =>
        match t.ping with
        | .timeoutExpired m | .fileNotFound m | .failure m => { r with latency_error := some m }
        | .output prc pout =>
          if prc = 0 then latParseLines gateway r (pySplitOn pout "\n") else r
    else r

/-- The fixed domain list of the DNS probe. -/
def test_domains : List String := ["google.com", "github.com", "cloudflare.com"]

/-- Sequential resolution loop of the DNS probe: the first failing
`socket.gethostbyname` aborts with its message, discarding the partial
timings; otherwise the per-domain timings (milliseconds) are collected in
order. -/
def dnsLoop (resolver : String → Except String ℚ) : List String → List ℚ → Except String (List ℚ)
  | [], acc => .ok acc
  | d :: ds, acc =>
    match resolver d with
    | .error m => .error m
    | .ok t => dnsLoop resolver ds (acc ++ [t])

/-- DNS probe: resolve the three fixed domains, then report the rounded
average, smallest and largest timing; an aborted loop stores only
`dns_error`. -/
def dnsProbe (resolver : String → Except String ℚ) (r : NetResult) : NetResult :=
  match dnsLoop resolver test_domains [] with
  | .error m => { r with dns_error := some m }
  | .ok times =>
    { r with dns_avg_ms := some (round2 (times.sum / (times.length : ℚ))),
             dns_min_ms := some (round2 (pyMin times)),
             dns_max_ms := some (round2 (pyMax times)) }

/-- Environment of one `BenchmarkRunner.run_network_benchmark` call. -/
structure NetInputs where
  counters : Option (Nat × Nat)
  thr : ThrInputs
  lat : LatInputs
  dns : String → Except String ℚ

/-- `BenchmarkRunner.run_network_benchmark`: the four probes run in sequence
on one shared results dictionary, each under its own handler; the adapter
always finishes with status "completed" and bumps the progress counter once. -/
def run_network_benchmark (inp : NetInputs) (p : Progress) : NetResult × Progress :=
  let p1 := { p with current_test := "Network", message := "Testing network performance..." }
  let r0 : NetResult := {}
  let r1 := countersProbe inp.counters r0
  let p2 := { p1 with message := "Testing network throughput with iperf3..." }
  let r2 := thrProbe inp.thr r1
  let p3 := { p2 with message := "Testing network latency..." }
  let r3 := latProbe inp.lat r2
  let p4 := { p3 with message := "Testing DNS resolution speed..." }
  let r4 := dnsProbe inp.dns r3
  ({ r4 with status := some "completed" }, { p4 with progress := p4.progress + 1 })

/-- The snapshot assembled by `BenchmarkRunner.get_system_info`; its values
come from platform and psutil calls, so the model takes the snapshot as an
input of the run. -/
structure SystemInfo where
  hostname : String
  os : String
  architecture : String
  cpu_model : String
  cpu_cores : Nat
  cpu_threads : Nat
  total_memory_gb : ℚ
deriving DecidableEq, Repr

/-- A value of the `benchmarks` mapping of the envelope. -/
inductive AdapterResult where
  | cpuR (r : CpuResult)
  | memR (r : MemResult)
  | diskR (r : DiskResult)
  | netR (r : NetResult)
deriving DecidableEq, Repr

/-- The `self.results` dictionary of `BenchmarkRunner`, which is also the
unit persisted by the store: `benchmarks` is an insertion-ordered mapping,
and `id` / `timestamp` are the keys added by `BenchmarkDatabase.add_result`
(absent while the envelope only lives in the runner). `completed_at` carries
the completion timestamp as an abstract value. -/
structure Envelope where
  system_info : Option SystemInfo := none
  benchmarks : List (String × AdapterResult) := []
  custom_name : Option String := none
  completed_at : Option Nat := none
  id : Option String := none
  timestamp : Option String := none
deriving DecidableEq, Repr

/-- The shared mutable fields of `BenchmarkRunner`. -/
structure RunState where
  running : Bool
  progress : Progress
  results : Envelope
deriving DecidableEq, Repr

instance : Inhabited RunState :=
  ⟨{ running := false, progress := ⟨"", 0, 0, ""⟩, results := {} }⟩

/-- Environment of one `BenchmarkRunner.run_all_benchmarks` call: the system
snapshot, the outcome environment of each adapter, the optional custom name
passed by the caller, and the completion timestamp. -/
structure RunInputs where
  info : SystemInfo
  cpu : ToolOutcome
  memory : ToolOutcome
  disk : DiskInputs
  net : NetInputs
  custom_name : Option String
  now : Nat

/-- Trace of `BenchmarkRunner.run_all_benchmarks`: the runner states at the
reset, after the progress counter is set to 1, after each adapter result is
stored, after the final progress update, after `completed_at` is stamped, and
after the running flag is cleared. An empty custom name is falsy in Python
and therefore stores no key. -/
def runAllStates (inp : RunInputs) : List RunState :=
  let s0 : RunState :=
    { running := true,
      progress :=
        { current_test := "Starting", progress := 0, total_tests := 5,
          message := "Initializing benchmark..." },
      results :=
        { system_info := some inp.info, benchmarks := [],
          custom_name := inp.custom_name.bind (fun n => if n = "" then none else some n) } }
  let s1 := { s0 with progress := { s0.progress with progress := 1 } }
  let c := run_cpu_benchmark inp.cpu s1.progress
  let s2 :=
    { s1 with
      progress := c.2,
      results :=
        { s1.results with
          benchmarks := s1.results.benchmarks ++ [("cpu", AdapterResult.cpuR c.1)] } }
  let m := run_memory_benchmark inp.memory s2.progress
  let s3 :=
    { s2 with
      progress := m.2,
      results :=
        { s2.results with
          benchmarks := s2.results.benchmarks ++ [("memory", AdapterResult.memR m.1)] } }
  let d := run_disk_benchmark inp.disk s3.progress
  let s4 :=
    { s3 with
      progress := d.2.1,
      results :=
        { s3.results with
          benchmarks := s3.results.benchmarks ++ [("disk", AdapterResult.diskR d.1)] } }
  let n := run_network_benchmark inp.net s4.progress
  let s5 :=
    { s4 with
      progress := n.2,
      results :=
        { s4.results with
          benchmarks := s4.results.benchmarks ++ [("network", AdapterResult.netR n.1)] } }
  let s6 :=
    { s5 with
      progress :=
        { s5.progress with
          current_test := "Completed", progress := 5,
          message := "All benchmarks completed!" } }
  let s7 := { s6 with results := { s6.results with completed_at := some inp.now } }
  let s8 := { s7 with running := false }
  [s0, s1, s2, s3, s4, s5, s6, s7, s8]

/-- Envelope returned by `BenchmarkRunner.run_all_benchmarks` (the runner
state when the method returns). -/
def run_all_benchmarks (inp : RunInputs) : RunState :=
  (runAllStates inp).getLastD default

/-- The `data` dictionary of `BenchmarkDatabase`. -/
structure DbState where
  servers : List Envelope
deriving DecidableEq, Repr

/-- `BenchmarkDatabase.add_result`: write the generated id and the creation
timestamp into the envelope, append it to the collection, persist, and
return the id. The generated uuid and timestamp are inputs of the model. -/
def BenchmarkDatabase.add_result (db : DbState) (result : Envelope) (newId ts : String) :
    DbState × String :=
  let r := { result with id := some newId, timestamp := some ts }
  ({ servers := db.servers ++ [r] }, newId)

/-- `BenchmarkDatabase.get_all`: the collection in insertion order. -/
def BenchmarkDatabase.get_all (db : DbState) : List Envelope :=
  db.servers

/-- `BenchmarkDatabase.delete`: keep every record whose id key differs from
the requested id (a record without an id key compares unequal and is kept). -/
def BenchmarkDatabase.delete (db : DbState) (result_id : String) : DbState :=
  { servers := db.servers.filter (fun s => decide (s.id ≠ some result_id)) }

/-- `BenchmarkDatabase.clear_all`: reset the collection to empty. -/
def BenchmarkDatabase.clear_all (_db : DbState) : DbState :=
  { servers := [] }

/-- File states observable if the process crashes during
`BenchmarkDatabase.save`: the save opens the backing file with mode "w",
which truncates it to empty in place, and `json.dump` then writes the
serialized collection sequentially, so a crash leaves some prefix of the new
content (the empty string right after the truncation). There is no write to
a temporary file followed by a rename. -/
def save_intermediate (content : String) : List String :=
  (List.range (content.length + 1)).map (fun k => content.take k)

/-- Heap of envelope objects: `BenchmarkRunner.results` holds a reference,
and `database.data` holds a list of references to the very objects that were
passed to `add_result`. -/
structure HeapState where
  heap : Nat → Envelope
  resultsRef : Nat
  servers : List Nat

/-- Reference-level model of `BenchmarkDatabase.add_result`: the id and
timestamp are written into the object behind the given reference, and the
reference itself is appended to the collection. -/
def add_result_ref (s : HeapState) (rf : Nat) (newId ts : String) : HeapState :=
  { s with
    heap := Function.update s.heap rf
      { s.heap rf with id := some newId, timestamp := some ts },
    servers := s.servers ++ [rf] }

/-- Persistence step of `BenchmarkHTTPHandler._run_and_save`: the envelope
passed to `add_result` is `self.benchmark_runner.results` itself — the very
object concurrent status readers observe. -/
def run_and_save (s : HeapState) (newId ts : String) : HeapState :=
  add_result_ref s s.resultsRef newId ts

/-- Program counter of one request together with the worker thread it may
spawn: the handler is about to read the running flag; it observed the flag
clear and the spawned `run_all_benchmarks` is about to set it; the run body
is executing; the thread is finished (or the request was a no-op). -/
inductive TPC where
  | readFlag
  | setFlag
  | runBody
  | done
deriving DecidableEq, Repr

/-- Interleaving state for two start requests against one runner: the
`running` flag, the number of completed runs, a ghost flag recording whether
`self.running = True` was ever executed while the flag was already set, and
both thread program counters. -/
structure GuardState where
  running : Bool
  completedRuns : Nat
  flagSetWhileRunning : Bool
  pcs : Fin 2 → TPC

/-- One scheduler step of the chosen thread. The handler test
`if not self.benchmark_runner.running` only reads the flag; the assignment
`self.running = True` is the first statement of `run_all_benchmarks`,
executed later by the spawned thread, unconditionally. -/
def guardStep (s : GuardState) (t : Fin 2) : GuardState :=
  match s.pcs t with
  | .readFlag =>
    if s.running then { s with pcs := Function.update s.pcs t .done }
    else { s with pcs := Function.update s.pcs t .setFlag }
  | .setFlag =>
    { s with running := true,
             flagSetWhileRunning := s.flagSetWhileRunning || s.running,
             pcs := Function.update s.pcs t .runBody }
  | .runBody =>
    { s with running := false, completedRuns := s.completedRuns + 1,
             pcs := Function.update s.pcs t .done }
  | .done => s

/-- Execution of a schedule from the idle initial state (flag clear, both
requests pending). -/
def guardExec (sched : List (Fin 2)) : GuardState :=
  sched.foldl guardStep
    { running := false, completedRuns := 0, flagSetWhileRunning := false,
      pcs := fun _ => TPC.readFlag }

/-- The progress dictionary as initialized by `BenchmarkRunner.__init__`. -/
def initProgress : Progress :=
  { current_test := "", progress := 0, total_tests := 5, message := "" }

/-- A successful throughput-probe environment. -/
def demoThrOk : ThrInputs :=
  { spawn := none, client := .output 0 "", waitErr := none,
    sent := .ok 94500000, recv := .ok 94200000 }

/-- A successful latency-probe environment. -/
def demoLatOk : LatInputs :=
  { gw := .output 0 "default via 192.168.1.1 dev eth0 proto dhcp",
    ping := .output 0 "PING 192.168.1.1\nrtt min/avg/max/mdev = 0.5/1.0/2.0/0.3 ms" }

/-- A network environment in which only the interface-counters probe fails
(psutil raises) while the other three probes all succeed. -/
def demoNetFailCounters : NetInputs :=
  { counters := none, thr := demoThrOk, lat := demoLatOk, dns := fun _ => .ok 10 }

/-- A fully successful network environment. -/
def demoNetOk : NetInputs :=
  { counters := some (1073741824, 2147483648), thr := demoThrOk, lat := demoLatOk,
    dns := fun _ => .ok 10 }

/-- A network environment whose resolver fails on the second of the three
fixed domains while everything else succeeds. -/
def demoNetDnsFail : NetInputs :=
  { counters := some (1073741824, 2147483648), thr := demoThrOk, lat := demoLatOk,
    dns := fun d => if d = "github.com" then .error "resolution failed" else .ok 5 }

/-- A network environment whose iperf3 client returns with a nonzero exit
status while everything else succeeds. -/
def demoNetThrExit : NetInputs :=
  { counters := some (1073741824, 2147483648),
    thr := { spawn := none, client := .output 1 "", waitErr := none,
             sent := .ok 0, recv := .ok 0 },
    lat := demoLatOk, dns := fun _ => .ok 5 }

/-- A disk environment whose prepare and run invocations return normally and
whose cleanup invocation raises `subprocess.TimeoutExpired`. -/
def demoDiskCleanupTimeout : DiskInputs :=
  { prep := .output 0 "", runIo := .output 0 "read, MiB/s: 50.25\nwritten, MiB/s: 33.5",
    cleanup := .timeoutExpired "Command sysbench fileio cleanup timed out after 10 seconds",
    ddWrite := .output 0 "", ddRead := .output 0 "" }

/-- A fully successful disk environment. -/
def demoDiskOk : DiskInputs :=
  { prep := .output 0 "", runIo := .output 0 "read, MiB/s: 50.25\nwritten, MiB/s: 33.5",
    cleanup := .output 0 "", ddWrite := .output 0 "", ddRead := .output 0 "" }

/-- A host snapshot used by the concrete runs. -/
def demoInfo : SystemInfo :=
  { hostname := "node-a", os := "Linux 6.1.0", architecture := "x86_64",
    cpu_model := "Demo CPU", cpu_cores := 4, cpu_threads := 8, total_memory_gb := 16 }

/-- A fully successful run environment. -/
def demoRun : RunInputs :=
  { info := demoInfo,
    cpu := .output 0 "sysbench 1.0.20\nevents per second:  1234.56\nother",
    memory := .output 0 "10240.00 MiB transferred (1024.00 MiB/sec)",
    disk := demoDiskOk, net := demoNetOk, custom_name := some "node-a", now := 7 }

theorem cpu_bump (o : ToolOutcome) (p : Progress) :
    ((run_cpu_benchmark o p).2).progress = p.progress + 1 := by
  cases o <;> rfl

theorem mem_bump (o : ToolOutcome) (p : Progress) :
    ((run_memory_benchmark o p).2).progress = p.progress + 1 := by
  cases o <;> rfl

theorem disk_bump (inp : DiskInputs) (p : Progress) :
    ((run_disk_benchmark inp p).2.1).progress = p.progress + 1 := by
  obtain ⟨prep, runio, cl, dw, dr⟩ := inp
  cases prep <;> cases runio <;> cases cl
  all_goals simp only [run_disk_benchmark]
  all_goals first | rfl | (split <;> rfl)

theorem net_bump (inp : NetInputs) (p : Progress) :
    ((run_network_benchmark inp p).2).progress = p.progress + 1 := rfl

theorem runAll_progress_map (inp : RunInputs) :
    (runAllStates inp).map (fun s => s.progress.progress) = [0, 1, 2, 3, 4, 5, 5, 5, 5] := by
  simp [runAllStates, cpu_bump, mem_bump, disk_bump, net_bump]

/-- C4: along the trace of one `run_all_benchmarks` call the progress counter
is monotonically non-decreasing, never exceeds `total_tests` (5), grows by
exactly 1 at each of the four adapter boundaries regardless of the adapter
outcomes, and is 0 only at the reset that starts the run. -/
theorem progress_counter_invariant (inp : RunInputs) :
    List.Chain' (· ≤ ·) ((runAllStates inp).map (fun s => s.progress.progress))
    ∧ (∀ x ∈ (runAllStates inp).map (fun s => s.progress.progress), x ≤ 5)
    ∧ 0 ∉ ((runAllStates inp).map (fun s => s.progress.progress)).drop 1
    ∧ (∀ i, 1 ≤ i → i ≤ 4 →
        ((runAllStates inp).map (fun s => s.progress.progress)).getD (i + 1) 0
          = ((runAllStates inp).map (fun s => s.progress.progress)).getD i 0 + 1) := by
  rw [runAll_progress_map inp]
  refine ⟨by norm_num [List.chain'_cons], by decide, by decide, ?_⟩
  intro i h1 h4
  interval_cases i <;> decide

theorem progress_counter_invariant_witness :
    List.Chain' (· ≤ ·) ((runAllStates demoRun).map (fun s => s.progress.progress))
    ∧ (5 : ℕ) ≤ 5
    ∧ ((runAllStates demoRun).map (fun s => s.progress.progress)).getD 2 0
        = ((runAllStates demoRun).map (fun s => s.progress.progress)).getD 1 0 + 1 :=
  ⟨(progress_counter_invariant demoRun).1,
   (progress_counter_invariant demoRun).2.1 5
     (by rw [runAll_progress_map demoRun]; decide),
   (progress_counter_invariant demoRun).2.2.2 1 (by decide) (by decide)⟩

/-- C3: for every mix of adapter outcomes, the envelope holds exactly one
entry per adapter name, in the fixed order, and every trace state in which
`completed_at` is stamped already has all four slots filled. -/
theorem run_all_envelope_slots (inp : RunInputs) :
    (∀ s ∈ runAllStates inp, s.results.completed_at.isSome = true →
        s.results.benchmarks.map Prod.fst = ["cpu", "memory", "disk", "network"])
    ∧ (run_all_benchmarks inp).results.benchmarks.map Prod.fst
        = ["cpu", "memory", "disk", "network"]
    ∧ (run_all_benchmarks inp).results.completed_at = some inp.now := by
  refine ⟨?_, ?_, ?_⟩
  · intro s hs hc
    simp only [runAllStates, List.mem_cons, List.not_mem_nil, or_false] at hs
    rcases hs with rfl | rfl | rfl | rfl | rfl | rfl | rfl | rfl | rfl <;> simp_all
  · simp [run_all_benchmarks, runAllStates]
  · simp [run_all_benchmarks, runAllStates]

theorem run_all_envelope_slots_witness :
    (run_all_benchmarks demoRun).results.benchmarks.map Prod.fst
      = ["cpu", "memory", "disk", "network"] :=
  (run_all_envelope_slots demoRun).1 (run_all_benchmarks demoRun)
    (by simp [run_all_benchmarks, runAllStates])
    (by simp [run_all_benchmarks, runAllStates])

/-- C5: adding an envelope appends, at the end of the insertion order, a
record equal to it except for the generated id and timestamp, and returns the
id; deleting keeps exactly the records whose id differs (order preserved, and
a no-op when the id is absent, without error); clearing empties the store. -/
theorem store_roundtrip (db : DbState) (e : Envelope) (newId ts rid : String) :
    BenchmarkDatabase.get_all (BenchmarkDatabase.add_result db e newId ts).1
      = BenchmarkDatabase.get_all db ++ [{ e with id := some newId, timestamp := some ts }]
    ∧ (BenchmarkDatabase.add_result db e newId ts).2 = newId
    ∧ BenchmarkDatabase.get_all (BenchmarkDatabase.delete db rid)
      = (BenchmarkDatabase.get_all db).filter (fun s => decide (s.id ≠ some rid))
    ∧ List.Sublist (BenchmarkDatabase.get_all (BenchmarkDatabase.delete db rid))
        (BenchmarkDatabase.get_all db)
    ∧ ((∀ s ∈ BenchmarkDatabase.get_all db, s.id ≠ some rid) →
        BenchmarkDatabase.delete db rid = db)
    ∧ BenchmarkDatabase.get_all (BenchmarkDatabase.clear_all db) = [] := by
  obtain ⟨l⟩ := db
  refine ⟨rfl, rfl, rfl, List.filter_sublist l, ?_, rfl⟩
  intro h
  have hf : l.filter (fun s => decide (s.id ≠ some rid)) = l :=
    List.filter_eq_self.mpr (fun a ha => decide_eq_true (h a ha))
  exact congrArg DbState.mk hf

theorem store_roundtrip_witness :
    BenchmarkDatabase.delete ⟨[{ id := some "a" }]⟩ "b" = ⟨[{ id := some "a" }]⟩
    ∧ BenchmarkDatabase.get_all (BenchmarkDatabase.clear_all ⟨[{ id := some "a" }]⟩) = [] :=
  ⟨(store_roundtrip ⟨[{ id := some "a" }]⟩ {} "x" "t" "b").2.2.2.2.1 (by decide),
   (store_roundtrip ⟨[{ id := some "a" }]⟩ {} "x" "t" "b").2.2.2.2.2⟩

/-- C10: persisting writes the generated id and timestamp into the very
envelope object the runner exposes to status readers (the store appends a
reference to that object), leaving every other field of the envelope, the
runner's reference, and all other heap objects unchanged. -/
theorem add_result_aliases_envelope (s : HeapState) (newId ts : String) :
    ((run_and_save s newId ts).heap s.resultsRef).id = some newId
    ∧ ((run_and_save s newId ts).heap s.resultsRef).timestamp = some ts
    ∧ ((run_and_save s newId ts).heap s.resultsRef).system_info
        = (s.heap s.resultsRef).system_info
    ∧ ((run_and_save s newId ts).heap s.resultsRef).benchmarks
        = (s.heap s.resultsRef).benchmarks
    ∧ ((run_and_save s newId ts).heap s.resultsRef).custom_name
        = (s.heap s.resultsRef).custom_name
    ∧ ((run_and_save s newId ts).heap s.resultsRef).completed_at
        = (s.heap s.resultsRef).completed_at
    ∧ (run_and_save s newId ts).resultsRef = s.resultsRef
    ∧ (run_and_save s newId ts).servers = s.servers ++ [s.resultsRef]
    ∧ (∀ r, r ≠ s.resultsRef → (run_and_save s newId ts).heap r = s.heap r) := by
  unfold run_and_save add_result_ref
  refine ⟨?_, ?_, ?_, ?_, ?_, ?_, rfl, rfl, ?_⟩ <;>
    simp [Function.update_apply]
  intro r hr
  simp [Function.update_apply, hr]

theorem add_result_aliases_envelope_witness :
    ((run_and_save ⟨fun _ => {}, 0, []⟩ "id-1" "t-1").heap 0).id = some "id-1"
    ∧ (run_and_save ⟨fun _ => {}, 0, []⟩ "id-1" "t-1").heap 1 = {} :=
  ⟨(add_result_aliases_envelope ⟨fun _ => {}, 0, []⟩ "id-1" "t-1").1,
   (add_result_aliases_envelope ⟨fun _ => {}, 0, []⟩ "id-1" "t-1").2.2.2.2.2.2.2.2 1
     (by decide)⟩

/-- C1: the start guard is a plain read of the running flag followed by a
later write from the spawned thread, not an atomic check-and-set. Under the
interleaving in which both requests read the flag before either spawned
`run_all_benchmarks` has set it, both observe Idle, the flag assignment of
the second run happens while the first is already Running, and two runs
execute. A request whose read does occur after the flag is set is a no-op
and only one run executes. -/
theorem guard_race_two_runs :
    (guardExec [0, 1, 0, 1, 0, 1]).completedRuns = 2
    ∧ (guardExec [0, 1, 0, 1, 0, 1]).flagSetWhileRunning = true
    ∧ (guardExec [0, 0, 1, 0]).completedRuns = 1
    ∧ (guardExec [0, 0, 1, 0]).flagSetWhileRunning = false := by decide

/-- C2: `BenchmarkDatabase.save` rewrites the backing file in place — mode
"w" truncates first, then the new serialization is written — so among the
file states a crash can leave is the empty file, and no crash state equals
the previously committed content: the previously committed collection is not
kept intact, contradicting the atomic-replace discipline the claim states. -/
theorem save_crash_loses_previous_data :
    "" ∈ save_intermediate "rewritten full collection"
    ∧ "previously committed collection" ∉ save_intermediate "rewritten full collection"
    ∧ (save_intermediate "rewritten full collection").head? = some "" := by decide

/-- C7 counterexample: prepare and run return normally, the run output even
parses, yet a cleanup invocation that raises (here a timeout) turns the
adapter result into an error — the cleanup failure is not swallowed. -/
theorem disk_cleanup_timeout_not_swallowed :
    (run_disk_benchmark demoDiskCleanupTimeout initProgress).1
      = .error "Command sysbench fileio cleanup timed out after 10 seconds"
    ∧ demoDiskCleanupTimeout.cleanup
      = .timeoutExpired "Command sysbench fileio cleanup timed out after 10 seconds" := by
  refine ⟨rfl, rfl⟩

/-- C7 (amended): when prepare and run return, the cleanup invocation always
executes — it precedes all parsing, hence runs even when parsing fails — and
a cleanup that returns with any exit code is ignored (the adapter still
completes); but an exception raised by the cleanup invocation itself escapes
to the outer handler and becomes an error result. -/
theorem disk_cleanup_policy (inp : DiskInputs) (p : Progress) :
    (∀ rc o rc2 o2, inp.prep = .output rc o → inp.runIo = .output rc2 o2 →
        "cleanup" ∈ (run_disk_benchmark inp p).2.2)
    ∧ (∀ rc o rc2 o2 rc3 o3, inp.prep = .output rc o → inp.runIo = .output rc2 o2 →
        inp.cleanup = .output rc3 o3 →
        ∃ r w, (run_disk_benchmark inp p).1 = .completed r w)
    ∧ (∀ rc o rc2 o2 m, inp.prep = .output rc o → inp.runIo = .output rc2 o2 →
        (inp.cleanup = .timeoutExpired m ∨ inp.cleanup = .fileNotFound m ∨
         inp.cleanup = .failure m) →
        (run_disk_benchmark inp p).1 = .error m) := by
  obtain ⟨prep, runio, cl, dw, dr⟩ := inp
  refine ⟨?_, ?_, ?_⟩
  · rintro rc o rc2 o2 rfl rfl
    cases cl <;> simp [run_disk_benchmark]
  · rintro rc o rc2 o2 rc3 o3 rfl rfl rfl
    exact ⟨_, _, rfl⟩
  · rintro rc o rc2 o2 m rfl rfl (rfl | rfl | rfl) <;> rfl

theorem disk_cleanup_policy_witness :
    "cleanup" ∈ (run_disk_benchmark demoDiskOk initProgress).2.2
    ∧ (∃ r w, (run_disk_benchmark demoDiskOk initProgress).1 = .completed r w) :=
  ⟨(disk_cleanup_policy demoDiskOk initProgress).1 0 ""
      0 "read, MiB/s: 50.25\nwritten, MiB/s: 33.5" rfl rfl,
   (disk_cleanup_policy demoDiskOk initProgress).2.1 0 ""
      0 "read, MiB/s: 50.25\nwritten, MiB/s: 33.5" 0 "" rfl rfl rfl⟩

theorem cpuParseLines_no_match (ls : List String)
    (h : ∀ l ∈ ls, hasSub l "events per second:" = false) :
    cpuParseLines ls = .completed 0 := by
  induction ls with
  | nil => rfl
  | cons l ls ih =>
    simp only [cpuParseLines, h l (List.mem_cons_self l ls)]
    exact ih (fun x hx => h x (List.mem_cons_of_mem l hx))

theorem cpuParseLines_first_match (pre post : List String) (lineM : String) (q : ℚ)
    (hpre : ∀ l ∈ pre, hasSub l "events per second:" = false)
    (hM : hasSub lineM "events per second:" = true)
    (hq : parseFloat (pyStrip ((pySplitOn lineM ":").getD 1 "")) = some q) :
    cpuParseLines (pre ++ lineM :: post) = .completed q := by
  induction pre with
  | nil =>
    simp only [List.nil_append, cpuParseLines, hM, eq_self_iff_true, if_true]
    rw [hq]
  | cons l ls ih =>
    simp only [List.cons_append, cpuParseLines, hpre l (List.mem_cons_self l ls)]
    exact ih (fun x hx => hpre x (List.mem_cons_of_mem l hx))

/-- C8 counterexample: the messages stored by the cpu adapter are exactly
"sysbench not installed" for a missing tool and "Timeout" for an exceeded
timeout, not the strings "tool not installed" and "timeout" the claim
states. -/
theorem cpu_adapter_message_strings :
    (run_cpu_benchmark (.fileNotFound "[Errno 2] No such file or directory") initProgress).1
      = .error "sysbench not installed"
    ∧ CpuResult.error "sysbench not installed" ≠ CpuResult.error "tool not installed"
    ∧ (run_cpu_benchmark (.timeoutExpired "Command timed out after 60 seconds") initProgress).1
      = .error "Timeout"
    ∧ CpuResult.error "Timeout" ≠ CpuResult.error "timeout" := by decide

/-- C8 (amended): the cpu adapter parses the report for an
"events per second" line and the first matching line wins; a successful run
with no matching line completes with an events-per-second figure of 0; a
missing tool reports the error "sysbench not installed", an exceeded timeout
reports "Timeout", and any other failure reports that failure's message. -/
theorem cpu_adapter_policy (p : Progress) :
    (∀ m, (run_cpu_benchmark (.fileNotFound m) p).1 = .error "sysbench not installed")
    ∧ (∀ m, (run_cpu_benchmark (.timeoutExpired m) p).1 = .error "Timeout")
    ∧ (∀ m, (run_cpu_benchmark (.failure m) p).1 = .error m)
    ∧ (∀ rc out, (∀ l ∈ pySplitOn out "\n", hasSub l "events per second:" = false) →
        (run_cpu_benchmark (.output rc out) p).1 = .completed 0)
    ∧ (∀ rc out pre lineM post q, pySplitOn out "\n" = pre ++ lineM :: post →
        (∀ l ∈ pre, hasSub l "events per second:" = false) →
        hasSub lineM "events per second:" = true →
        parseFloat (pyStrip ((pySplitOn lineM ":").getD 1 "")) = some q →
        (run_cpu_benchmark (.output rc out) p).1 = .completed q) := by
  refine ⟨fun m => rfl, fun m => rfl, fun m => rfl, ?_, ?_⟩
  · intro rc out h
    exact cpuParseLines_no_match (pySplitOn out "\n") h
  · intro rc out pre lineM post q hsplit hpre hM hq
    show cpuParseLines (pySplitOn out "\n") = .completed q
    rw [hsplit]
    exact cpuParseLines_first_match pre post lineM q hpre hM hq

unseal Rat.mul Rat.inv Rat.add Rat.sub in
theorem cpu_adapter_policy_witness :
    (run_cpu_benchmark (.output 0 "sysbench 1.0.20\nevents per second:  1234.56\nother")
        initProgress).1 = .completed (123456 / 100)
    ∧ (run_cpu_benchmark (.output 0 "no figures here") initProgress).1 = .completed 0
    ∧ (run_cpu_benchmark (.failure "boom") initProgress).1 = .error "boom" :=
  ⟨(cpu_adapter_policy initProgress).2.2.2.2 0
      "sysbench 1.0.20\nevents per second:  1234.56\nother"
      ["sysbench 1.0.20"] "events per second:  1234.56" ["other"] (123456 / 100)
      (by decide) (by decide) (by decide) (by decide),
   (cpu_adapter_policy initProgress).2.2.2.1 0 "no figures here" (by decide),
   (cpu_adapter_policy initProgress).2.2.1 "boom"⟩

/-- C9: on a report in the legacy "mb/sec" phrasing only (no modern
"read, mib/s:" / "written, mib/s:" lines), the parsed read and write figures
are exactly the MB/s figures of the report multiplied by 0.9537. -/
theorem disk_legacy_conversion (lineR lineW : String) (qr qw : ℚ)
    (hR1 : hasSub (pyLower lineR) "read, mib/s:" = false)
    (hR2 : hasSub (pyLower lineR) "written, mib/s:" = false)
    (hR3 : hasSub (pyLower lineR) "read" = true)
    (hR4 : hasSub (pyLower lineR) "mb/sec" = true)
    (hR5 : legacyExtract (pySplit lineR) = some qr)
    (hW1 : hasSub (pyLower lineW) "read, mib/s:" = false)
    (hW2 : hasSub (pyLower lineW) "written, mib/s:" = false)
    (hW3 : hasSub (pyLower lineW) "read" = false)
    (hW4 : hasSub (pyLower lineW) "written" = true)
    (hW5 : hasSub (pyLower lineW) "mb/sec" = true)
    (hW6 : legacyExtract (pySplit lineW) = some qw) :
    diskParseLines [lineR, lineW] = (qr * (9537 / 10000), qw * (9537 / 10000)) := by
  simp only [diskParseLines, List.foldl, diskLineUpdate,
    hR1, hR2, hR3, hR4, hR5, hW1, hW2, hW3, hW4, hW5, hW6,
    Bool.true_and, Bool.false_and, Bool.true_or, Bool.or_true, if_true, if_false,
    eq_self_iff_true, Bool.and_self, Bool.false_or]
  simp

unseal Rat.mul Rat.inv Rat.add Rat.sub in
theorem disk_legacy_conversion_witness :
    diskParseLines ["total read speed 120.5 mb/sec", "total written speed 80.25 mb/sec"]
      = ((241 / 2) * (9537 / 10000), (321 / 4) * (9537 / 10000)) :=
  disk_legacy_conversion "total read speed 120.5 mb/sec" "total written speed 80.25 mb/sec"
    (241 / 2) (321 / 4)
    (by decide) (by decide) (by decide) (by decide) (by decide)
    (by decide) (by decide) (by decide) (by decide) (by decide) (by decide)

theorem countersProbe_shape (c : Option (Nat × Nat)) (r : NetResult) :
    ∃ a b, countersProbe c r
      = { r with total_bytes_sent_gb := a, total_bytes_recv_gb := b } := by
  cases c with
  | none => exact ⟨r.total_bytes_sent_gb, r.total_bytes_recv_gb, rfl⟩
  | some sv => exact ⟨_, _, rfl⟩

theorem thrProbe_shape (t : ThrInputs) (r : NetResult) :
    ∃ a b e, thrProbe t r
      = { r with throughput_send_mbps := a, throughput_recv_mbps := b,
                 throughput_error := e } := by
  rcases t with ⟨sp, cl, w, se, re⟩
  unfold thrProbe
  cases sp
  · cases cl
    · cases w
      · dsimp only
        split
        · cases se
          · exact ⟨r.throughput_send_mbps, r.throughput_recv_mbps, _, rfl⟩
          · cases re
            · exact ⟨_, r.throughput_recv_mbps, _, rfl⟩
            · exact ⟨_, _, r.throughput_error, rfl⟩
        · exact ⟨r.throughput_send_mbps, r.throughput_recv_mbps, r.throughput_error, rfl⟩
      · exact ⟨r.throughput_send_mbps, r.throughput_recv_mbps, _, rfl⟩
    · exact ⟨r.throughput_send_mbps, r.throughput_recv_mbps, _, rfl⟩
    · exact ⟨r.throughput_send_mbps, r.throughput_recv_mbps, _, rfl⟩
    · exact ⟨r.throughput_send_mbps, r.throughput_recv_mbps, _, rfl⟩
  · exact ⟨r.throughput_send_mbps, r.throughput_recv_mbps, _, rfl⟩

theorem latParseLines_shape (g : String) (r : NetResult) (lines : List String) :
    ∃ mn av mx gw e, latParseLines g r lines
      = { r with latency_min_ms := mn, latency_avg_ms := av, latency_max_ms := mx,
                 latency_gateway := gw, latency_error := e } := by
  induction lines generalizing r with
  | nil =>
    exact ⟨r.latency_min_ms, r.latency_avg_ms, r.latency_max_ms, r.latency_gateway,
      r.latency_error, rfl⟩
  | cons l ls ih =>
    simp only [latParseLines]
    split
    · split
      · exact ⟨r.latency_min_ms, r.latency_avg_ms, r.latency_max_ms, r.latency_gateway,
          _, rfl⟩
      · split
        · exact ⟨r.latency_min_ms, r.latency_avg_ms, r.latency_max_ms, r.latency_gateway,
            _, rfl⟩
        · split
          · split
            · exact ⟨r.latency_min_ms, r.latency_avg_ms, r.latency_max_ms,
                r.latency_gateway, _, rfl⟩
            · split
              · exact ⟨_, r.latency_avg_ms, r.latency_max_ms, r.latency_gateway, _, rfl⟩
              · split
                · exact ⟨_, _, r.latency_max_ms, r.latency_gateway, _, rfl⟩
                · exact ⟨_, _, _, _, r.latency_error, rfl⟩
          · exact ⟨r.latency_min_ms, r.latency_avg_ms, r.latency_max_ms,
              r.latency_gateway, _, rfl⟩
    · exact ih r

theorem latProbe_shape (t : LatInputs) (r : NetResult) :
    ∃ mn av mx gw e, latProbe t r
      = { r with latency_min_ms := mn, latency_avg_ms := av, latency_max_ms := mx,
                 latency_gateway := gw, latency_error := e } := by
  rcases t with ⟨gw, ping⟩
  unfold latProbe
  cases gw
  case output rc out =>
    dsimp only
    split
    · cases hsp : (pySplit out).get? 2 with
      | none =>
        exact ⟨r.latency_min_ms, r.latency_avg_ms, r.latency_max_ms, r.latency_gateway,
          _, rfl⟩
      | some gateway =>
        cases ping
        case output prc pout =>
          dsimp only
          split
          · exact latParseLines_shape gateway r (pySplitOn pout "\n")
          · exact ⟨r.latency_min_ms, r.latency_avg_ms, r.latency_max_ms,
              r.latency_gateway, r.latency_error, rfl⟩
        all_goals
          exact ⟨r.latency_min_ms, r.latency_avg_ms, r.latency_max_ms,
            r.latency_gateway, _, rfl⟩
    · exact ⟨r.latency_min_ms, r.latency_avg_ms, r.latency_max_ms, r.latency_gateway,
        r.latency_error, rfl⟩
  all_goals
    exact ⟨r.latency_min_ms, r.latency_avg_ms, r.latency_max_ms, r.latency_gateway,
      _, rfl⟩

theorem dnsProbe_shape (f : String → Except String ℚ) (r : NetResult) :
    ∃ av mn mx e, dnsProbe f r
      = { r with dns_avg_ms := av, dns_min_ms := mn, dns_max_ms := mx,
                 dns_error := e } := by
  unfold dnsProbe
  split
  · exact ⟨r.dns_avg_ms, r.dns_min_ms, r.dns_max_ms, _, rfl⟩
  · exact ⟨_, _, _, r.dns_error, rfl⟩

theorem thrProbe_keeps_sent (t : ThrInputs) (r : NetResult) :
    (thrProbe t r).total_bytes_sent_gb = r.total_bytes_sent_gb := by
  obtain ⟨a, b, e, h⟩ := thrProbe_shape t r; rw [h]

theorem thrProbe_keeps_recv (t : ThrInputs) (r : NetResult) :
    (thrProbe t r).total_bytes_recv_gb = r.total_bytes_recv_gb := by
  obtain ⟨a, b, e, h⟩ := thrProbe_shape t r; rw [h]

theorem thrProbe_keeps_dnsAvg (t : ThrInputs) (r : NetResult) :
    (thrProbe t r).dns_avg_ms = r.dns_avg_ms := by
  obtain ⟨a, b, e, h⟩ := thrProbe_shape t r; rw [h]

theorem latProbe_keeps_sent (t : LatInputs) (r : NetResult) :
    (latProbe t r).total_bytes_sent_gb = r.total_bytes_sent_gb := by
  obtain ⟨mn, av, mx, gw, e, h⟩ := latProbe_shape t r; rw [h]

theorem latProbe_keeps_recv (t : LatInputs) (r : NetResult) :
    (latProbe t r).total_bytes_recv_gb = r.total_bytes_recv_gb := by
  obtain ⟨mn, av, mx, gw, e, h⟩ := latProbe_shape t r; rw [h]

theorem latProbe_keeps_thrErr (t : LatInputs) (r : NetResult) :
    (latProbe t r).throughput_error = r.throughput_error := by
  obtain ⟨mn, av, mx, gw, e, h⟩ := latProbe_shape t r; rw [h]

theorem latProbe_keeps_dnsAvg (t : LatInputs) (r : NetResult) :
    (latProbe t r).dns_avg_ms = r.dns_avg_ms := by
  obtain ⟨mn, av, mx, gw, e, h⟩ := latProbe_shape t r; rw [h]

theorem dnsProbe_keeps_sent (f : String → Except String ℚ) (r : NetResult) :
    (dnsProbe f r).total_bytes_sent_gb = r.total_bytes_sent_gb := by
  obtain ⟨av, mn, mx, e, h⟩ := dnsProbe_shape f r; rw [h]

theorem dnsProbe_keeps_recv (f : String → Except String ℚ) (r : NetResult) :
    (dnsProbe f r).total_bytes_recv_gb = r.total_bytes_recv_gb := by
  obtain ⟨av, mn, mx, e, h⟩ := dnsProbe_shape f r; rw [h]

theorem dnsProbe_keeps_thrErr (f : String → Except String ℚ) (r : NetResult) :
    (dnsProbe f r).throughput_error = r.throughput_error := by
  obtain ⟨av, mn, mx, e, h⟩ := dnsProbe_shape f r; rw [h]

theorem dnsProbe_keeps_latErr (f : String → Except String ℚ) (r : NetResult) :
    (dnsProbe f r).latency_error = r.latency_error := by
  obtain ⟨av, mn, mx, e, h⟩ := dnsProbe_shape f r; rw [h]

theorem countersProbe_keeps_dnsAvg (c : Option (Nat × Nat)) (r : NetResult) :
    (countersProbe c r).dns_avg_ms = r.dns_avg_ms := by
  obtain ⟨a, b, h⟩ := countersProbe_shape c r; rw [h]

theorem countersProbe_keeps_thrErr (c : Option (Nat × Nat)) (r : NetResult) :
    (countersProbe c r).throughput_error = r.throughput_error := by
  obtain ⟨a, b, h⟩ := countersProbe_shape c r; rw [h]

theorem countersProbe_keeps_thrSend (c : Option (Nat × Nat)) (r : NetResult) :
    (countersProbe c r).throughput_send_mbps = r.throughput_send_mbps := by
  obtain ⟨a, b, h⟩ := countersProbe_shape c r; rw [h]

theorem countersProbe_keeps_thrRecv (c : Option (Nat × Nat)) (r : NetResult) :
    (countersProbe c r).throughput_recv_mbps = r.throughput_recv_mbps := by
  obtain ⟨a, b, h⟩ := countersProbe_shape c r; rw [h]

theorem countersProbe_keeps_latErr (c : Option (Nat × Nat)) (r : NetResult) :
    (countersProbe c r).latency_error = r.latency_error := by
  obtain ⟨a, b, h⟩ := countersProbe_shape c r; rw [h]

theorem countersProbe_keeps_latAvg (c : Option (Nat × Nat)) (r : NetResult) :
    (countersProbe c r).latency_avg_ms = r.latency_avg_ms := by
  obtain ⟨a, b, h⟩ := countersProbe_shape c r; rw [h]

theorem thrProbe_keeps_latErr (t : ThrInputs) (r : NetResult) :
    (thrProbe t r).latency_error = r.latency_error := by
  obtain ⟨a, b, e, h⟩ := thrProbe_shape t r; rw [h]

theorem thrProbe_keeps_latAvg (t : ThrInputs) (r : NetResult) :
    (thrProbe t r).latency_avg_ms = r.latency_avg_ms := by
  obtain ⟨a, b, e, h⟩ := thrProbe_shape t r; rw [h]

theorem latProbe_keeps_thrSend (t : LatInputs) (r : NetResult) :
    (latProbe t r).throughput_send_mbps = r.throughput_send_mbps := by
  obtain ⟨mn, av, mx, gw, e, h⟩ := latProbe_shape t r; rw [h]

theorem latProbe_keeps_thrRecv (t : LatInputs) (r : NetResult) :
    (latProbe t r).throughput_recv_mbps = r.throughput_recv_mbps := by
  obtain ⟨mn, av, mx, gw, e, h⟩ := latProbe_shape t r; rw [h]

theorem dnsProbe_keeps_thrSend (f : String → Except String ℚ) (r : NetResult) :
    (dnsProbe f r).throughput_send_mbps = r.throughput_send_mbps := by
  obtain ⟨av, mn, mx, e, h⟩ := dnsProbe_shape f r; rw [h]

theorem dnsProbe_keeps_thrRecv (f : String → Except String ℚ) (r : NetResult) :
    (dnsProbe f r).throughput_recv_mbps = r.throughput_recv_mbps := by
  obtain ⟨av, mn, mx, e, h⟩ := dnsProbe_shape f r; rw [h]

theorem dnsProbe_keeps_latAvg (f : String → Except String ℚ) (r : NetResult) :
    (dnsProbe f r).latency_avg_ms = r.latency_avg_ms := by
  obtain ⟨av, mn, mx, e, h⟩ := dnsProbe_shape f r; rw [h]

theorem latParseLines_no_match (g : String) (r : NetResult) (lines : List String)
    (h : ∀ l ∈ lines, hasSub l "rtt min/avg/max" = false
        ∧ hasSub l "round-trip min/avg/max" = false) :
    latParseLines g r lines = r := by
  induction lines with
  | nil => rfl
  | cons l ls ih =>
    obtain ⟨h1, h2⟩ := h l (List.mem_cons_self l ls)
    simp only [latParseLines, h1, h2, Bool.or_self, Bool.or_false, Bool.false_or]
    exact ih (fun x hx => h x (List.mem_cons_of_mem l hx))

theorem netresult_set_counters_eta (r : NetResult) (a b : Option ℚ)
    (h1 : r.total_bytes_sent_gb = a) (h2 : r.total_bytes_recv_gb = b) :
    { r with total_bytes_sent_gb := a, total_bytes_recv_gb := b } = r := by
  subst h1; subst h2; rfl

theorem thrProbe_frame (t : ThrInputs) (r : NetResult) (a b : Option ℚ) :
    thrProbe t { r with total_bytes_sent_gb := a, total_bytes_recv_gb := b }
      = { thrProbe t r with total_bytes_sent_gb := a, total_bytes_recv_gb := b } := by
  rcases t with ⟨sp, cl, w, se, re⟩
  unfold thrProbe
  cases sp <;> cases cl <;> cases w <;> cases se <;> cases re <;>
    first
      | rfl
      | (dsimp only; split <;> rfl)

theorem latParseLines_frame (g : String) (r : NetResult) (a b : Option ℚ)
    (lines : List String) :
    latParseLines g { r with total_bytes_sent_gb := a, total_bytes_recv_gb := b } lines
      = { latParseLines g r lines with
          total_bytes_sent_gb := a, total_bytes_recv_gb := b } := by
  induction lines generalizing r with
  | nil => rfl
  | cons l ls ih =>
    simp only [latParseLines]
    split
    · split
      · rfl
      · split
        · rfl
        · split
          · split
            · rfl
            · split
              · rfl
              · split
                · rfl
                · rfl
          · rfl
    · exact ih r

theorem latProbe_frame (t : LatInputs) (r : NetResult) (a b : Option ℚ) :
    latProbe t { r with total_bytes_sent_gb := a, total_bytes_recv_gb := b }
      = { latProbe t r with total_bytes_sent_gb := a, total_bytes_recv_gb := b } := by
  rcases t with ⟨gw, ping⟩
  unfold latProbe
  cases gw
  case output rc out =>
    dsimp only
    split
    · cases hsp : (pySplit out).get? 2 with
      | none => rfl
      | some gateway =>
        cases ping
        case output prc pout =>
          dsimp only
          split
          · exact latParseLines_frame gateway r a b (pySplitOn pout "\n")
          · rfl
        all_goals rfl
    · rfl
  all_goals rfl

theorem dnsProbe_frame (f : String → Except String ℚ) (r : NetResult) (a b : Option ℚ) :
    dnsProbe f { r with total_bytes_sent_gb := a, total_bytes_recv_gb := b }
      = { dnsProbe f r with total_bytes_sent_gb := a, total_bytes_recv_gb := b } := by
  unfold dnsProbe
  split <;> rfl

theorem thrProbe_spawn_exc (t : ThrInputs) (r : NetResult) (e : PyExc)
    (hsp : t.spawn = some e) :
    thrProbe t r = { r with throughput_error := some (thrErrMsg e) } := by
  rcases t with ⟨sp, cl, w, se, re⟩
  cases hsp
  rfl

theorem thrProbe_client_timeout (t : ThrInputs) (r : NetResult) (m : String)
    (hsp : t.spawn = none) (hcl : t.client = .timeoutExpired m) :
    thrProbe t r = { r with throughput_error := some "iperf3 timeout" } := by
  rcases t with ⟨sp, cl, w, se, re⟩
  cases hsp; cases hcl
  rfl

theorem thrProbe_client_notFound (t : ThrInputs) (r : NetResult) (m : String)
    (hsp : t.spawn = none) (hcl : t.client = .fileNotFound m) :
    thrProbe t r = { r with throughput_error := some "iperf3 not installed" } := by
  rcases t with ⟨sp, cl, w, se, re⟩
  cases hsp; cases hcl
  rfl

theorem thrProbe_client_failure (t : ThrInputs) (r : NetResult) (m : String)
    (hsp : t.spawn = none) (hcl : t.client = .failure m) :
    thrProbe t r = { r with throughput_error := some m } := by
  rcases t with ⟨sp, cl, w, se, re⟩
  cases hsp; cases hcl
  rfl

theorem thrProbe_wait_exc (t : ThrInputs) (r : NetResult) (rc : Int) (out : String)
    (e : PyExc) (hsp : t.spawn = none) (hcl : t.client = .output rc out)
    (hw : t.waitErr = some e) :
    thrProbe t r = { r with throughput_error := some (thrErrMsg e) } := by
  rcases t with ⟨sp, cl, w, se, re⟩
  cases hsp; cases hcl; cases hw
  rfl

theorem thrProbe_sent_error (t : ThrInputs) (r : NetResult) (out m : String)
    (hsp : t.spawn = none) (hcl : t.client = .output 0 out) (hw : t.waitErr = none)
    (hse : t.sent = .error m) :
    thrProbe t r = { r with throughput_error := some m } := by
  rcases t with ⟨sp, cl, w, se, re⟩
  cases hsp; cases hcl; cases hw; cases hse
  rfl

theorem thrProbe_recv_error (t : ThrInputs) (r : NetResult) (out m : String) (s : ℚ)
    (hsp : t.spawn = none) (hcl : t.client = .output 0 out) (hw : t.waitErr = none)
    (hse : t.sent = .ok s) (hre : t.recv = .error m) :
    thrProbe t r
      = { r with throughput_send_mbps := some (round2 (s / 1000000)),
                 throughput_error := some m } := by
  rcases t with ⟨sp, cl, w, se, re⟩
  cases hsp; cases hcl; cases hw; cases hse; cases hre
  rfl

theorem thrProbe_nonzero_exit (t : ThrInputs) (r : NetResult) (rc : Int) (out : String)
    (hsp : t.spawn = none) (hcl : t.client = .output rc out) (hw : t.waitErr = none)
    (hrc : rc ≠ 0) :
    thrProbe t r = r := by
  rcases t with ⟨sp, cl, w, se, re⟩
  cases hsp; cases hcl; cases hw
  unfold thrProbe
  dsimp only
  rw [if_neg hrc]

theorem latProbe_gw_exc (t : LatInputs) (r : NetResult) (m : String)
    (hgw : t.gw = .timeoutExpired m ∨ t.gw = .fileNotFound m ∨ t.gw = .failure m) :
    latProbe t r = { r with latency_error := some m } := by
  rcases t with ⟨gw, ping⟩
  rcases hgw with h | h | h <;> cases h <;> rfl

theorem latProbe_gw_nonzero (t : LatInputs) (r : NetResult) (rc : Int) (out : String)
    (hgw : t.gw = .output rc out) (hrc : rc ≠ 0) :
    latProbe t r = r := by
  rcases t with ⟨gw, ping⟩
  cases hgw
  unfold latProbe
  dsimp only
  rw [if_neg hrc]

theorem latProbe_ping_exc (t : LatInputs) (r : NetResult) (out g m : String)
    (hgw : t.gw = .output 0 out) (hg : (pySplit out).get? 2 = some g)
    (hping : t.ping = .timeoutExpired m ∨ t.ping = .fileNotFound m
        ∨ t.ping = .failure m) :
    latProbe t r = { r with latency_error := some m } := by
  rcases t with ⟨gw, ping⟩
  cases hgw
  unfold latProbe
  dsimp only
  rw [if_pos (show (0 : Int) = 0 from rfl), hg]
  rcases hping with h | h | h <;> cases h <;> rfl

theorem latProbe_ping_nonzero (t : LatInputs) (r : NetResult) (out g : String)
    (prc : Int) (pout : String)
    (hgw : t.gw = .output 0 out) (hg : (pySplit out).get? 2 = some g)
    (hping : t.ping = .output prc pout) (hprc : prc ≠ 0) :
    latProbe t r = r := by
  rcases t with ⟨gw, ping⟩
  cases hgw; cases hping
  unfold latProbe
  dsimp only
  rw [if_pos (show (0 : Int) = 0 from rfl), hg]
  dsimp only
  rw [if_neg hprc]

theorem latProbe_no_summary (t : LatInputs) (r : NetResult) (out g pout : String)
    (hgw : t.gw = .output 0 out) (hg : (pySplit out).get? 2 = some g)
    (hping : t.ping = .output 0 pout)
    (hml : ∀ l ∈ pySplitOn pout "\n", hasSub l "rtt min/avg/max" = false
        ∧ hasSub l "round-trip min/avg/max" = false) :
    latProbe t r = r := by
  rcases t with ⟨gw, ping⟩
  cases hgw; cases hping
  unfold latProbe
  dsimp only
  rw [if_pos (show (0 : Int) = 0 from rfl), hg]
  dsimp only
  rw [if_pos (show (0 : Int) = 0 from rfl)]
  exact latParseLines_no_match g r (pySplitOn pout "\n") hml

theorem run_network_reads_thrErr (inp : NetInputs) (p : Progress) :
    ((run_network_benchmark inp p).1).throughput_error
      = (thrProbe inp.thr (countersProbe inp.counters {})).throughput_error := by
  rw [show ((run_network_benchmark inp p).1).throughput_error
      = (dnsProbe inp.dns (latProbe inp.lat (thrProbe inp.thr
          (countersProbe inp.counters ({} : NetResult))))).throughput_error from rfl]
  rw [dnsProbe_keeps_thrErr, latProbe_keeps_thrErr]

theorem run_network_reads_thrSend (inp : NetInputs) (p : Progress) :
    ((run_network_benchmark inp p).1).throughput_send_mbps
      = (thrProbe inp.thr (countersProbe inp.counters {})).throughput_send_mbps := by
  rw [show ((run_network_benchmark inp p).1).throughput_send_mbps
      = (dnsProbe inp.dns (latProbe inp.lat (thrProbe inp.thr
          (countersProbe inp.counters ({} : NetResult))))).throughput_send_mbps from rfl]
  rw [dnsProbe_keeps_thrSend, latProbe_keeps_thrSend]

theorem run_network_reads_thrRecv (inp : NetInputs) (p : Progress) :
    ((run_network_benchmark inp p).1).throughput_recv_mbps
      = (thrProbe inp.thr (countersProbe inp.counters {})).throughput_recv_mbps := by
  rw [show ((run_network_benchmark inp p).1).throughput_recv_mbps
      = (dnsProbe inp.dns (latProbe inp.lat (thrProbe inp.thr
          (countersProbe inp.counters ({} : NetResult))))).throughput_recv_mbps from rfl]
  rw [dnsProbe_keeps_thrRecv, latProbe_keeps_thrRecv]

theorem run_network_reads_latErr (inp : NetInputs) (p : Progress) :
    ((run_network_benchmark inp p).1).latency_error
      = (latProbe inp.lat (thrProbe inp.thr
          (countersProbe inp.counters {}))).latency_error := by
  rw [show ((run_network_benchmark inp p).1).latency_error
      = (dnsProbe inp.dns (latProbe inp.lat (thrProbe inp.thr
          (countersProbe inp.counters ({} : NetResult))))).latency_error from rfl]
  rw [dnsProbe_keeps_latErr]

theorem run_network_reads_latAvg (inp : NetInputs) (p : Progress) :
    ((run_network_benchmark inp p).1).latency_avg_ms
      = (latProbe inp.lat (thrProbe inp.thr
          (countersProbe inp.counters {}))).latency_avg_ms := by
  rw [show ((run_network_benchmark inp p).1).latency_avg_ms
      = (dnsProbe inp.dns (latProbe inp.lat (thrProbe inp.thr
          (countersProbe inp.counters ({} : NetResult))))).latency_avg_ms from rfl]
  rw [dnsProbe_keeps_latAvg]

unseal Rat.mul Rat.inv Rat.add Rat.sub in
/-- C6 counterexample: with the interface-counters probe failing and every
other probe succeeding, the merged result still has status "completed" but
carries no error field at all — the counters failure is silently swallowed
(`NetResult` lists every key the adapter can set, and the code has no error
field for the counters probe), while the claim requires every probe failure
to be captured in that probe's own error field. -/
theorem net_counters_failure_silent :
    demoNetFailCounters.counters = none
    ∧ ((run_network_benchmark demoNetFailCounters initProgress).1).status = some "completed"
    ∧ ((run_network_benchmark demoNetFailCounters initProgress).1).total_bytes_sent_gb = none
    ∧ ((run_network_benchmark demoNetFailCounters initProgress).1).total_bytes_recv_gb = none
    ∧ ((run_network_benchmark demoNetFailCounters initProgress).1).throughput_error = none
    ∧ ((run_network_benchmark demoNetFailCounters initProgress).1).latency_error = none
    ∧ ((run_network_benchmark demoNetFailCounters initProgress).1).dns_error = none
    ∧ ((run_network_benchmark demoNetFailCounters initProgress).1).latency_avg_ms = some 1
    ∧ ((run_network_benchmark demoNetFailCounters initProgress).1).dns_avg_ms = some 10
    ∧ ((run_network_benchmark demoNetFailCounters initProgress).1).throughput_send_mbps
        = some (189 / 2) := by
  decide

/-- C6 (amended): the network adapter always completes (status "completed",
one progress bump) and the probes are independent — in particular an
interface-counters failure only removes the two counter fields from the
result of the same run. Failures raised as exceptions inside the throughput,
latency and DNS probes are captured in `throughput_error`, `latency_error`
and `dns_error` (a DNS abort retains no partial average). Failures that do
not raise are silent: a counters failure, a nonzero iperf3 client exit
status, a nonzero `ip route` or ping exit status, and a ping report with no
round-trip summary line each record no error field and no figure. -/
theorem network_probe_isolation (inp : NetInputs) (p : Progress) :
    ((run_network_benchmark inp p).1).status = some "completed"
    ∧ ((run_network_benchmark inp p).2).progress = p.progress + 1
    ∧ (run_network_benchmark { inp with counters := none } p).1
        = { (run_network_benchmark inp p).1 with
            total_bytes_sent_gb := none, total_bytes_recv_gb := none }
    ∧ (∀ e, inp.thr.spawn = some e →
        ((run_network_benchmark inp p).1).throughput_error = some (thrErrMsg e))
    ∧ (∀ m, inp.thr.spawn = none → inp.thr.client = .timeoutExpired m →
        ((run_network_benchmark inp p).1).throughput_error = some "iperf3 timeout")
    ∧ (∀ m, inp.thr.spawn = none → inp.thr.client = .fileNotFound m →
        ((run_network_benchmark inp p).1).throughput_error
          = some "iperf3 not installed")
    ∧ (∀ m, inp.thr.spawn = none → inp.thr.client = .failure m →
        ((run_network_benchmark inp p).1).throughput_error = some m)
    ∧ (∀ rc out e, inp.thr.spawn = none → inp.thr.client = .output rc out →
        inp.thr.waitErr = some e →
        ((run_network_benchmark inp p).1).throughput_error = some (thrErrMsg e))
    ∧ (∀ out m, inp.thr.spawn = none → inp.thr.client = .output 0 out →
        inp.thr.waitErr = none → inp.thr.sent = .error m →
        ((run_network_benchmark inp p).1).throughput_error = some m)
    ∧ (∀ out s m, inp.thr.spawn = none → inp.thr.client = .output 0 out →
        inp.thr.waitErr = none → inp.thr.sent = .ok s → inp.thr.recv = .error m →
        ((run_network_benchmark inp p).1).throughput_error = some m
        ∧ ((run_network_benchmark inp p).1).throughput_send_mbps
            = some (round2 (s / 1000000)))
    ∧ (∀ rc out, inp.thr.spawn = none → inp.thr.client = .output rc out →
        inp.thr.waitErr = none → rc ≠ 0 →
        ((run_network_benchmark inp p).1).throughput_error = none
        ∧ ((run_network_benchmark inp p).1).throughput_send_mbps = none
        ∧ ((run_network_benchmark inp p).1).throughput_recv_mbps = none)
    ∧ (∀ m, (inp.lat.gw = .timeoutExpired m ∨ inp.lat.gw = .fileNotFound m ∨
        inp.lat.gw = .failure m) →
        ((run_network_benchmark inp p).1).latency_error = some m)
    ∧ (∀ rc out, inp.lat.gw = .output rc out → rc ≠ 0 →
        ((run_network_benchmark inp p).1).latency_error = none
        ∧ ((run_network_benchmark inp p).1).latency_avg_ms = none)
    ∧ (∀ out g m, inp.lat.gw = .output 0 out → (pySplit out).get? 2 = some g →
        (inp.lat.ping = .timeoutExpired m ∨ inp.lat.ping = .fileNotFound m ∨
         inp.lat.ping = .failure m) →
        ((run_network_benchmark inp p).1).latency_error = some m)
    ∧ (∀ out g prc pout, inp.lat.gw = .output 0 out →
        (pySplit out).get? 2 = some g → inp.lat.ping = .output prc pout → prc ≠ 0 →
        ((run_network_benchmark inp p).1).latency_error = none
        ∧ ((run_network_benchmark inp p).1).latency_avg_ms = none)
    ∧ (∀ out g pout, inp.lat.gw = .output 0 out → (pySplit out).get? 2 = some g →
        inp.lat.ping = .output 0 pout →
        (∀ l ∈ pySplitOn pout "\n", hasSub l "rtt min/avg/max" = false
            ∧ hasSub l "round-trip min/avg/max" = false) →
        ((run_network_benchmark inp p).1).latency_error = none
        ∧ ((run_network_benchmark inp p).1).latency_avg_ms = none)
    ∧ (∀ m, dnsLoop inp.dns test_domains [] = .error m →
        ((run_network_benchmark inp p).1).dns_error = some m
        ∧ ((run_network_benchmark inp p).1).dns_avg_ms = none) := by
  refine ⟨rfl, rfl, ?_, ?_, ?_, ?_, ?_, ?_, ?_, ?_, ?_, ?_, ?_, ?_, ?_, ?_, ?_⟩
  · dsimp only [run_network_benchmark]
    cases hc : inp.counters with
    | none =>
      refine (netresult_set_counters_eta _ none none ?_ ?_).symm
      · rw [show ({ dnsProbe inp.dns (latProbe inp.lat (thrProbe inp.thr
            (countersProbe none {}))) with
            status := some "completed" } : NetResult).total_bytes_sent_gb
          = (dnsProbe inp.dns (latProbe inp.lat (thrProbe inp.thr
              (countersProbe none ({} : NetResult))))).total_bytes_sent_gb from rfl]
        rw [dnsProbe_keeps_sent, latProbe_keeps_sent, thrProbe_keeps_sent]
        rfl
      · rw [show ({ dnsProbe inp.dns (latProbe inp.lat (thrProbe inp.thr
            (countersProbe none {}))) with
            status := some "completed" } : NetResult).total_bytes_recv_gb
          = (dnsProbe inp.dns (latProbe inp.lat (thrProbe inp.thr
              (countersProbe none ({} : NetResult))))).total_bytes_recv_gb from rfl]
        rw [dnsProbe_keeps_recv, latProbe_keeps_recv, thrProbe_keeps_recv]
        rfl
    | some sv =>
      obtain ⟨cs, cv⟩ := sv
      simp only [countersProbe]
      rw [thrProbe_frame inp.thr {} (some (round2 ((cs : ℚ) / 1024 ^ 3)))
            (some (round2 ((cv : ℚ) / 1024 ^ 3))),
          latProbe_frame inp.lat (thrProbe inp.thr {})
            (some (round2 ((cs : ℚ) / 1024 ^ 3))) (some (round2 ((cv : ℚ) / 1024 ^ 3))),
          dnsProbe_frame inp.dns (latProbe inp.lat (thrProbe inp.thr {}))
            (some (round2 ((cs : ℚ) / 1024 ^ 3))) (some (round2 ((cv : ℚ) / 1024 ^ 3)))]
      show ({ dnsProbe inp.dns (latProbe inp.lat (thrProbe inp.thr ({} : NetResult))) with
          status := some "completed" } : NetResult)
        = { ({ dnsProbe inp.dns (latProbe inp.lat (thrProbe inp.thr ({} : NetResult))) with
            status := some "completed" } : NetResult) with
            total_bytes_sent_gb := none, total_bytes_recv_gb := none }
      refine (netresult_set_counters_eta _ none none ?_ ?_).symm
      · rw [show ({ dnsProbe inp.dns (latProbe inp.lat (thrProbe inp.thr
            ({} : NetResult))) with
            status := some "completed" } : NetResult).total_bytes_sent_gb
          = (dnsProbe inp.dns (latProbe inp.lat (thrProbe inp.thr
              ({} : NetResult)))).total_bytes_sent_gb from rfl]
        rw [dnsProbe_keeps_sent, latProbe_keeps_sent, thrProbe_keeps_sent]
      · rw [show ({ dnsProbe inp.dns (latProbe inp.lat (thrProbe inp.thr
            ({} : NetResult))) with
            status := some "completed" } : NetResult).total_bytes_recv_gb
          = (dnsProbe inp.dns (latProbe inp.lat (thrProbe inp.thr
              ({} : NetResult)))).total_bytes_recv_gb from rfl]
        rw [dnsProbe_keeps_recv, latProbe_keeps_recv, thrProbe_keeps_recv]
  · intro e he
    rw [run_network_reads_thrErr, thrProbe_spawn_exc inp.thr _ e he]
  · intro m hsp hcl
    rw [run_network_reads_thrErr, thrProbe_client_timeout inp.thr _ m hsp hcl]
  · intro m hsp hcl
    rw [run_network_reads_thrErr, thrProbe_client_notFound inp.thr _ m hsp hcl]
  · intro m hsp hcl
    rw [run_network_reads_thrErr, thrProbe_client_failure inp.thr _ m hsp hcl]
  · intro rc out e hsp hcl hw
    rw [run_network_reads_thrErr, thrProbe_wait_exc inp.thr _ rc out e hsp hcl hw]
  · intro out m hsp hcl hw hse
    rw [run_network_reads_thrErr, thrProbe_sent_error inp.thr _ out m hsp hcl hw hse]
  · intro out s m hsp hcl hw hse hre
    refine ⟨?_, ?_⟩
    · rw [run_network_reads_thrErr,
        thrProbe_recv_error inp.thr _ out m s hsp hcl hw hse hre]
    · rw [run_network_reads_thrSend,
        thrProbe_recv_error inp.thr _ out m s hsp hcl hw hse hre]
  · intro rc out hsp hcl hw hrc
    refine ⟨?_, ?_, ?_⟩
    · rw [run_network_reads_thrErr,
        thrProbe_nonzero_exit inp.thr _ rc out hsp hcl hw hrc,
        countersProbe_keeps_thrErr]
    · rw [run_network_reads_thrSend,
        thrProbe_nonzero_exit inp.thr _ rc out hsp hcl hw hrc,
        countersProbe_keeps_thrSend]
    · rw [run_network_reads_thrRecv,
        thrProbe_nonzero_exit inp.thr _ rc out hsp hcl hw hrc,
        countersProbe_keeps_thrRecv]
  · intro m hgw
    rw [run_network_reads_latErr, latProbe_gw_exc inp.lat _ m hgw]
  · intro rc out hgw hrc
    refine ⟨?_, ?_⟩
    · rw [run_network_reads_latErr, latProbe_gw_nonzero inp.lat _ rc out hgw hrc,
        thrProbe_keeps_latErr, countersProbe_keeps_latErr]
    · rw [run_network_reads_latAvg, latProbe_gw_nonzero inp.lat _ rc out hgw hrc,
        thrProbe_keeps_latAvg, countersProbe_keeps_latAvg]
  · intro out g m hgw hg hping
    rw [run_network_reads_latErr, latProbe_ping_exc inp.lat _ out g m hgw hg hping]
  · intro out g prc pout hgw hg hping hprc
    refine ⟨?_, ?_⟩
    · rw [run_network_reads_latErr,
        latProbe_ping_nonzero inp.lat _ out g prc pout hgw hg hping hprc,
        thrProbe_keeps_latErr, countersProbe_keeps_latErr]
    · rw [run_network_reads_latAvg,
        latProbe_ping_nonzero inp.lat _ out g prc pout hgw hg hping hprc,
        thrProbe_keeps_latAvg, countersProbe_keeps_latAvg]
  · intro out g pout hgw hg hping hml
    refine ⟨?_, ?_⟩
    · rw [run_network_reads_latErr,
        latProbe_no_summary inp.lat _ out g pout hgw hg hping hml,
        thrProbe_keeps_latErr, countersProbe_keeps_latErr]
    · rw [run_network_reads_latAvg,
        latProbe_no_summary inp.lat _ out g pout hgw hg hping hml,
        thrProbe_keeps_latAvg, countersProbe_keeps_latAvg]
  · intro m hm
    dsimp only [run_network_benchmark]
    constructor
    · rw [show ({ dnsProbe inp.dns (latProbe inp.lat (thrProbe inp.thr
          (countersProbe inp.counters {}))) with
          status := some "completed" } : NetResult).dns_error
        = (dnsProbe inp.dns (latProbe inp.lat (thrProbe inp.thr
            (countersProbe inp.counters ({} : NetResult))))).dns_error from rfl]
      unfold dnsProbe
      rw [hm]
    · rw [show ({ dnsProbe inp.dns (latProbe inp.lat (thrProbe inp.thr
          (countersProbe inp.counters {}))) with
          status := some "completed" } : NetResult).dns_avg_ms
        = (dnsProbe inp.dns (latProbe inp.lat (thrProbe inp.thr
            (countersProbe inp.counters ({} : NetResult))))).dns_avg_ms from rfl]
      unfold dnsProbe
      rw [hm]
      rw [show ({ latProbe inp.lat (thrProbe inp.thr
          (countersProbe inp.counters ({} : NetResult))) with
          dns_error := some m } : NetResult).dns_avg_ms
        = (latProbe inp.lat (thrProbe inp.thr
            (countersProbe inp.counters ({} : NetResult)))).dns_avg_ms from rfl]
      rw [latProbe_keeps_dnsAvg, thrProbe_keeps_dnsAvg, countersProbe_keeps_dnsAvg]

theorem network_probe_isolation_witness :
    (((run_network_benchmark demoNetDnsFail initProgress).1).dns_error
        = some "resolution failed"
      ∧ ((run_network_benchmark demoNetDnsFail initProgress).1).dns_avg_ms = none)
    ∧ ((run_network_benchmark demoNetThrExit initProgress).1).throughput_error = none
    ∧ ((run_network_benchmark demoNetThrExit initProgress).1).throughput_send_mbps
        = none := by
  refine ⟨?_, ?_, ?_⟩
  · exact (network_probe_isolation demoNetDnsFail
      initProgress).2.2.2.2.2.2.2.2.2.2.2.2.2.2.2.2 "resolution failed" (by rfl)
  · exact ((network_probe_isolation demoNetThrExit
      initProgress).2.2.2.2.2.2.2.2.2.2.1 1 "" rfl rfl rfl (by decide)).1
  · exact ((network_probe_isolation demoNetThrExit
      initProgress).2.2.2.2.2.2.2.2.2.2.1 1 "" rfl rfl rfl (by decide)).2.1

end ServerBenchmark
